import Mathlib

/-!
Shallow embedding of the MT/BT protection-coordination (selectivity) evaluator
`verifica_selettivita_protezioni` of `src/Maurizio.py` (lines 1051-1311),
together with its three trip-time curve functions.

Modelling conventions:
* Python float arithmetic is modelled by exact rational arithmetic (`ℚ`);
  all numeric literals in the source are decimal and hence exact in `ℚ`.
* Python `float('inf')` ("never trips") is modelled by `none` in
  `Tempo := Option ℚ`; a finite trip time `t` is `some t`.
* The source extracts the LV breaker rated current by parsing the string
  `prot_bt["interruttore_generale"]` (e.g. "1250A ..."); here the already
  extracted numeric value `I_int_bt` is taken as the parameter.
* The `prot_mt` argument of the evaluator is kept as a parameter of an
  arbitrary type, exactly as in the source it is received and never read.
-/

/-- Trip time of a protection stage: `some t` is a finite time in seconds,
`none` models the Python sentinel `float('inf')` ("never trips"). -/
abbrev Tempo := Option ℚ

/-- Relay 51 MT (time-delayed overcurrent), source lines 1067-1085.
Very-inverse IEC curve `t = TMS * (13.5 / (rapporto - 1))` with the
hard-coded `TMS = 0.8`; below or at pickup the stage never trips. -/
def tempo_rele_51_mt (I_rele_51 corrente : ℚ) : Tempo :=
  if corrente < I_rele_51 then none
  else
    let rapporto := corrente / I_rele_51
    if rapporto ≤ 1 then none
    else
      let TMS : ℚ := 0.8
      some (TMS * (13.5 / (rapporto - 1)))

/-- Relay 50 MT (instantaneous stage), source lines 1087-1097: fixed 0.3 s
delay for `corrente >= I_rele_50`, otherwise never trips. -/
def tempo_rele_50_mt (I_rele_50 corrente : ℚ) : Tempo :=
  if corrente ≥ I_rele_50 then some 0.3 else none

/-- LV breaker trip curve, source lines 1099-1139.  The source declares the
default arguments `K_mag=10, K_term=1.45`; the evaluator calls it with the
defaults, which are passed explicitly here. -/
def tempo_interruttore_bt (corrente I_int_bt K_mag K_term : ℚ) : Tempo :=
  let I_mag_bt := I_int_bt * K_mag
  let I_term_bt := I_int_bt * K_term
  if corrente ≥ I_mag_bt then some 0.01
  else if corrente ≥ I_term_bt then
    let rapporto := corrente / I_int_bt
    if rapporto ≥ 50 then some 0.02
    else if rapporto ≥ 20 then some 0.05
    else if rapporto ≥ 10 then some 0.1
    else if rapporto ≥ 5 then some 0.5
    else if rapporto ≥ 2 then some 10
    else some (min (3600 / rapporto ^ 2) 3600)
  else none

/-- Python `min` over floats where `float('inf')` is `none`. -/
def tmin (a b : Tempo) : Tempo :=
  match a, b with
  | none, b => b
  | some x, none => some x
  | some x, some y => some (min x y)

/-- Strict order on trip times, `none` being `float('inf')`. -/
def tempo_lt (a b : Tempo) : Bool :=
  match a, b with
  | some x, some y => decide (x < y)
  | some _, none => true
  | none, _ => false

/-- Non-strict order on trip times, `none` being `float('inf')`. -/
def tempo_leb (a b : Tempo) : Bool :=
  match a, b with
  | _, none => true
  | none, some _ => false
  | some x, some y => decide (x ≤ y)

/-- Required coordination margin for a test current, source lines 1175-1180. -/
def margine_richiesto (I_bt Icc_bt I_test : ℚ) : ℚ :=
  if I_test ≥ Icc_bt * 0.5 then 0.2
  else if I_test ≥ I_bt * 10 then 0.25
  else 0.3

/-- The six classification branches of the per-point selectivity check,
source lines 1182-1208.  `ok` and `okNessuno` both render as the string
"✅ OK" in the source: `ok` is the adequate-margin branch (both stages
finite), `okNessuno` is the neither-trips branch. -/
inductive Selettivita where
  | ok
  | limite
  | no
  | perfetto
  | soloMT
  | okNessuno
deriving DecidableEq, Repr

/-- The display string the source stores for each classification branch. -/
def Selettivita.testo : Selettivita → String
  | .ok => "✅ OK"
  | .limite => "⚠️ LIMITE"
  | .no => "❌ NO"
  | .perfetto => "✅ PERFETTO"
  | .soloMT => "⚠️ SOLO MT"
  | .okNessuno => "✅ OK"

/-- Whether a classification branch is one whose display string carries the
checkmark character: `ok`, `perfetto` and `okNessuno`. -/
def Selettivita.conSpunta : Selettivita → Bool
  | .ok => true
  | .perfetto => true
  | .okNessuno => true
  | _ => false

/-- Whether a classification branch is adequate (`ok`) or ideal (`perfetto`)
in the spec's wording — the safe branch excluded. -/
def Selettivita.adeguataOIdeale : Selettivita → Bool
  | .ok => true
  | .perfetto => true
  | _ => false

/-- The value stored under `margine_s` in each per-point record: a number in
the both-finite branches, the string "∞" in the ideal branch, the string
"N/A" in the warning and neither-trips branches. -/
inductive Margine where
  | valore : ℚ → Margine
  | infinito
  | nonApplicabile
deriving DecidableEq, Repr

/-- Diagnostic record appended to `problemi_coordinamento` for an inadequate
point, source lines 1191-1199.  The final `problema` f-string of the source
only reformats `margine_ms` and `richiesto_ms` and is omitted. -/
structure ProblemaCoordinamento where
  corrente_kA : ℚ
  tempo_bt_ms : ℚ
  tempo_mt_ms : ℚ
  margine_ms : ℚ
  richiesto_ms : ℚ
  protezione_mt : String
deriving DecidableEq, Repr

/-- Per-test-point record appended to `risultati_selettivita`,
source lines 1210-1220. -/
structure RisultatoSelettivita where
  corrente_test_A : ℚ
  corrente_test_kA : ℚ
  corrente_mt_A : ℚ
  tempo_bt_s : Tempo
  tempo_mt_s : Tempo
  protezione_mt : String
  selettivita : Selettivita
  margine_s : Margine
  margine_richiesto_s : Option ℚ
deriving DecidableEq, Repr

/-- The four aggregate ratings, source lines 1227-1234.  In the source they
are the strings "SELETTIVITA ECCELLENTE / BUONA / ACCETTABILE / CRITICA"
(each prefixed by an emoji and with an apostrophe after SELETTIVITA). -/
inductive Valutazione where
  | eccellente
  | buona
  | accettabile
  | critica
deriving DecidableEq, Repr

/-- Body of the per-test-point loop of the evaluator, source lines 1155-1220:
computes both trip times, the active MT stage, the required margin, the
classification record and the optional inadequacy diagnostic. -/
def valuta_punto (I_rele_51 I_rele_50 I_int_bt rapporto_trasf I_bt Icc_bt I_test : ℚ) :
    RisultatoSelettivita × Option ProblemaCoordinamento :=
  let t_bt := tempo_interruttore_bt I_test I_int_bt 10 1.45
  let I_test_mt := I_test * rapporto_trasf
  let t_mt_51 := tempo_rele_51_mt I_rele_51 I_test_mt
  let t_mt_50 := tempo_rele_50_mt I_rele_50 I_test_mt
  let t_mt := tmin t_mt_51 t_mt_50
  let protezione_mt_attiva :=
    if t_mt = t_mt_50 ∧ t_mt_50 ≠ none then "50 (istantaneo)"
    else if t_mt = t_mt_51 ∧ t_mt_51 ≠ none then "51 (temporizzato)"
    else "Nessuna"
  let m_rich := margine_richiesto I_bt Icc_bt I_test
  match t_bt, t_mt with
  | some tb, some tm =>
      let margine := tm - tb
      if margine ≥ m_rich then
        (⟨I_test, I_test / 1000, I_test_mt, some tb, some tm, protezione_mt_attiva,
          .ok, .valore margine, some m_rich⟩, none)
      else if margine ≥ m_rich * 0.6 then
        (⟨I_test, I_test / 1000, I_test_mt, some tb, some tm, protezione_mt_attiva,
          .limite, .valore margine, some m_rich⟩, none)
      else
        (⟨I_test, I_test / 1000, I_test_mt, some tb, some tm, protezione_mt_attiva,
          .no, .valore margine, some m_rich⟩,
         some ⟨I_test / 1000, tb * 1000, tm * 1000, margine * 1000, m_rich * 1000,
               protezione_mt_attiva⟩)
  | some tb, none =>
      (⟨I_test, I_test / 1000, I_test_mt, some tb, none, protezione_mt_attiva,
        .perfetto, .infinito, none⟩, none)
  | none, some tm =>
      (⟨I_test, I_test / 1000, I_test_mt, none, some tm, protezione_mt_attiva,
        .soloMT, .nonApplicabile, none⟩, none)
  | none, none =>
      (⟨I_test, I_test / 1000, I_test_mt, none, none, protezione_mt_attiva,
        .okNessuno, .nonApplicabile, none⟩, none)

/-- The coordination report returned by the evaluator, source lines 1268-1311.
The purely constant string fields of the source dictionary (`curva_51`,
`note`, `tipo`, `normativa`-style labels) are kept only where some claim can
touch them; all computed fields are present. -/
structure ReportSelettivita where
  rele_51_A : ℚ
  rele_50_A : ℚ
  TMS_51 : ℚ
  ritardo_50_ms : ℚ
  curva_51 : String
  interruttore_In_A : ℚ
  soglia_magnetica_A : ℚ
  soglia_termica_A : ℚ
  tempo_magnetico_ms : ℚ
  risultati_selettivita : List RisultatoSelettivita
  problemi_coordinamento : List ProblemaCoordinamento
  n_punti_testati : ℕ
  n_punti_ok : ℕ
  n_problemi : ℕ
  percentuale_successo : ℚ
  valutazione_complessiva : Valutazione
  raccomandazioni : List String
  backup_mt_disponibile : Bool
  coordinamento_generale : String
  rapporto_trasformazione : ℚ
  debug_I_mt : ℚ
  debug_I_bt : ℚ
  debug_Icc_bt_kA : ℚ
deriving DecidableEq, Repr

/-- The selectivity evaluator `verifica_selettivita_protezioni`, source lines
1051-1311.  `V_mt` and `V_bt` are the object fields `self.V_mt`, `self.V_bt`;
`prot_mt` is received and never read, exactly as in the source; `I_int_bt` is
the numeric LV breaker rating the source parses out of `prot_bt`. -/
def verifica_selettivita_protezioni {α : Type _} (V_mt V_bt I_mt I_bt Icc_mt Icc_bt : ℚ)
    (prot_mt : α) (I_int_bt : ℚ) : ReportSelettivita :=
  let I_rele_51_mt := I_mt * 3
  let I_rele_50_mt := Icc_bt * 0.8 * (V_bt / V_mt)
  let rapporto_trasf := V_bt / V_mt
  let correnti_test : List ℚ :=
    [I_bt * 1.2, I_bt * 2, I_bt * 5, I_bt * 15, Icc_bt * 0.3, Icc_bt * 0.6, Icc_bt]
  let valutazioni := correnti_test.map
    (valuta_punto I_rele_51_mt I_rele_50_mt I_int_bt rapporto_trasf I_bt Icc_bt)
  let risultati_selettivita := valutazioni.map Prod.fst
  let problemi_coordinamento := (valutazioni.map Prod.snd).filterMap id
  -- source: sum(1 for r in risultati if "✅" in r["selettivita"]); the needle
  -- is a single character, so the substring test is character membership
  let n_ok := (risultati_selettivita.filter
    (fun r => decide ('✅' ∈ r.selettivita.testo.data))).length
  let n_problemi := problemi_coordinamento.length
  let percentuale_successo := ((n_ok : ℚ) / (risultati_selettivita.length : ℚ)) * 100
  let valutazione :=
    if percentuale_successo ≥ 85 then Valutazione.eccellente
    else if percentuale_successo ≥ 70 then Valutazione.buona
    else if percentuale_successo ≥ 50 then Valutazione.accettabile
    else Valutazione.critica
  let problemi_alta_corrente := problemi_coordinamento.filter
    (fun p => decide (p.corrente_kA > Icc_bt / 2000))
  let problemi_bassa_corrente := problemi_coordinamento.filter
    (fun p => decide (p.corrente_kA ≤ Icc_bt / 2000))
  let raccomandazioni :=
    (if n_problemi = 0 then
      ["✅ Selettività conforme CEI 0-16",
       "✅ Coordinamento protezioni ottimale",
       "✅ Pronto per messa in servizio"]
     else
      ["🔧 OTTIMIZZAZIONI SUGGERITE:"]
      ++ (if problemi_alta_corrente ≠ [] then
            ["• Aumentare ritardo 50 MT (attualmente 300ms)",
             "• Verificare curva magnetica interruttore BT"]
          else [])
      ++ (if problemi_bassa_corrente ≠ [] then
            ["• Aumentare TMS relè 51 MT (attualmente 0.4)",
             "• Considerare curva Extremely Inverse per 51 MT"]
          else []))
    ++ ["📋 VERIFICHE OBBLIGATORIE:",
        "• Test iniezione primaria relè (CEI 0-16)",
        "• Misura tempi intervento reali",
        "• Verifica coordinamento con protezioni upstream",
        "• Controllo derive parametri (ogni 2 anni)"]
  { rele_51_A := I_rele_51_mt
    rele_50_A := I_rele_50_mt
    TMS_51 := 0.4
    ritardo_50_ms := 300
    curva_51 := "Very Inverse IEC"
    interruttore_In_A := I_int_bt
    soglia_magnetica_A := I_int_bt * 10
    soglia_termica_A := I_int_bt * 1.45
    tempo_magnetico_ms := 10
    risultati_selettivita := risultati_selettivita
    problemi_coordinamento := problemi_coordinamento
    n_punti_testati := correnti_test.length
    n_punti_ok := n_ok
    n_problemi := n_problemi
    percentuale_successo := percentuale_successo
    valutazione_complessiva := valutazione
    raccomandazioni := raccomandazioni
    backup_mt_disponibile := (risultati_selettivita.filter
      (fun r => decide (r.corrente_test_kA > 5))).any
      (fun r => decide (r.tempo_mt_s ≠ none))
    coordinamento_generale :=
      if percentuale_successo ≥ 70 then "Conforme CEI 0-16" else "Da ottimizzare"
    rapporto_trasformazione := rapporto_trasf
    debug_I_mt := I_mt
    debug_I_bt := I_bt
    debug_Icc_bt_kA := Icc_bt / 1000 }

/-- Aggregate rating computed the way the spec words it: from the fraction of
test points classified adequate (`ok`) or ideal (`perfetto`) only.  This is
the spec-side definition used to compare against the source's rating, which
counts every classification whose display string contains the checkmark. -/
def valutazione_spec (risultati : List RisultatoSelettivita) : Valutazione :=
  let frazione := (((risultati.filter
      (fun r => r.selettivita.adeguataOIdeale)).length : ℚ)
    / (risultati.length : ℚ)) * 100
  if frazione ≥ 85 then .eccellente
  else if frazione ≥ 70 then .buona
  else if frazione ≥ 50 then .accettabile
  else .critica

/-! ## Helper lemmas -/

/-- Above a strictly positive pickup, the 51 stage returns exactly the
very-inverse value with the hard-coded `TMS = 0.8`. -/
lemma tempo_rele_51_mt_sopra (Is c : ℚ) (hIs : 0 < Is) (hc : Is < c) :
    tempo_rele_51_mt Is c = some (0.8 * (13.5 / (c / Is - 1))) := by
  have h1 : ¬ c < Is := not_lt.mpr hc.le
  have h2 : ¬ c / Is ≤ 1 := not_le.mpr ((one_lt_div hIs).mpr hc)
  simp [tempo_rele_51_mt, h1, h2]

/-- The substring test of the source, `"✅" in r["selettivita"]`, holds on
the six branch strings exactly for the `ok`, `perfetto` and `okNessuno`
branches. -/
lemma conSpunta_eq (s : Selettivita) :
    decide ('✅' ∈ s.testo.data) = s.conSpunta := by
  cases s <;> rfl

/-! ## Claims -/

/-- C3: the evaluator never reads its `prot_mt` argument: two calls that
differ only in `prot_mt` (even in its type) return identical reports, and
the MV relay settings are derived internally from `I_mt`, `Icc_bt` and the
voltage ratio. -/
theorem C3_prot_mt_ignorato {α β : Type} (p : α) (q : β)
    (V_mt V_bt I_mt I_bt Icc_mt Icc_bt I_int_bt : ℚ) :
    verifica_selettivita_protezioni V_mt V_bt I_mt I_bt Icc_mt Icc_bt p I_int_bt =
      verifica_selettivita_protezioni V_mt V_bt I_mt I_bt Icc_mt Icc_bt q I_int_bt ∧
    (verifica_selettivita_protezioni V_mt V_bt I_mt I_bt Icc_mt Icc_bt p I_int_bt).rele_51_A
      = I_mt * 3 ∧
    (verifica_selettivita_protezioni V_mt V_bt I_mt I_bt Icc_mt Icc_bt p I_int_bt).rele_50_A
      = Icc_bt * 0.8 * (V_bt / V_mt) :=
  ⟨rfl, rfl, rfl⟩

/-- C4 (amended): the evaluator performs no input validation whatsoever:
every call, with valid or invalid (non-positive) inputs alike, returns a
full seven-point coordination report; no validation-error path exists. -/
theorem C4_nessuna_validazione {α : Type} (p : α)
    (V_mt V_bt I_mt I_bt Icc_mt Icc_bt I_int_bt : ℚ) :
    (verifica_selettivita_protezioni V_mt V_bt I_mt I_bt Icc_mt Icc_bt
        p I_int_bt).n_punti_testati = 7 ∧
    (verifica_selettivita_protezioni V_mt V_bt I_mt I_bt Icc_mt Icc_bt
        p I_int_bt).risultati_selettivita.length = 7 :=
  ⟨rfl, rfl⟩

/-- C4 (counterexample): with the invalid non-positive MV nominal current
`I_mt = -10` the evaluator does not fail fast: it silently returns an
ordinary report with all seven points evaluated and an aggregate rating. -/
theorem C4_counterexample :
    (verifica_selettivita_protezioni 20000 400 (-10) 910 0 25000 ()
        1000).n_punti_testati = 7 ∧
    (verifica_selettivita_protezioni 20000 400 (-10) 910 0 25000 ()
        1000).valutazione_complessiva = Valutazione.eccellente := by
  refine ⟨rfl, ?_⟩
  norm_num [verifica_selettivita_protezioni, valuta_punto, tempo_interruttore_bt,
    tempo_rele_51_mt, tempo_rele_50_mt, tmin, margine_richiesto, Selettivita.testo,
    List.filter, List.filterMap]

/-- C5 (counterexample): the 51-stage inverse-time value is not clamped: at
pickup 3 A and current 3000 A it returns 2/185 s which is below the 0.05 s
floor, and at pickup 1000 A and current 1001 A it returns 10800 s which is
above any 80-300 s ceiling. -/
theorem C5_counterexample :
    tempo_rele_51_mt 3 3000 = some (2 / 185) ∧ (2 / 185 : ℚ) < 0.05 ∧
    tempo_rele_51_mt 1000 1001 = some 10800 ∧ (300 : ℚ) < 10800 := by
  norm_num [tempo_rele_51_mt]

/-- C5 (amended): for every current strictly above a strictly positive
pickup, the 51 stage returns exactly `0.8 * (13.5 / (r - 1))` with no floor
or ceiling: the value is strictly positive but otherwise unclamped. -/
theorem C5_formula_senza_clamp (Is c : ℚ) (hIs : 0 < Is) (hc : Is < c) :
    tempo_rele_51_mt Is c = some (0.8 * (13.5 / (c / Is - 1))) ∧
    0 < 0.8 * (13.5 / (c / Is - 1)) := by
  refine ⟨tempo_rele_51_mt_sopra Is c hIs hc, ?_⟩
  have h : 0 < c / Is - 1 := sub_pos.mpr ((one_lt_div hIs).mpr hc)
  exact mul_pos (by norm_num) (div_pos (by norm_num) h)

/-- C5 (witness): the amended C5 instantiated at pickup 3 A, current 3000 A. -/
theorem C5_formula_senza_clamp_witness :
    tempo_rele_51_mt 3 3000 = some (0.8 * (13.5 / (3000 / 3 - 1))) ∧
    (0 : ℚ) < 0.8 * (13.5 / (3000 / 3 - 1)) :=
  C5_formula_senza_clamp 3 3000 (by norm_num) (by norm_num)

/-- C7: for two currents strictly above a strictly positive 51 pickup, the
larger current gets a strictly smaller (finite) trip time. -/
theorem C7_monotonia_stretta_51 (Is c1 c2 : ℚ) (hIs : 0 < Is)
    (h1 : Is < c1) (h12 : c1 < c2) :
    tempo_lt (tempo_rele_51_mt Is c2) (tempo_rele_51_mt Is c1) = true ∧
    tempo_rele_51_mt Is c1 ≠ none ∧ tempo_rele_51_mt Is c2 ≠ none := by
  have e1 := tempo_rele_51_mt_sopra Is c1 hIs h1
  have e2 := tempo_rele_51_mt_sopra Is c2 hIs (h1.trans h12)
  rw [e1, e2]
  refine ⟨?_, by simp, by simp⟩
  simp only [tempo_lt, decide_eq_true_eq]
  have hr1 : 1 < c1 / Is := (one_lt_div hIs).mpr h1
  have hr2 : c1 / Is < c2 / Is := (div_lt_div_right hIs).mpr h12
  have h135 : (13.5 : ℚ) / (c2 / Is - 1) < 13.5 / (c1 / Is - 1) :=
    div_lt_div_of_pos_left (by norm_num) (by linarith) (by linarith)
  linarith

/-- C7 (witness): pickup 3 A, currents 150 A and 300 A. -/
theorem C7_monotonia_stretta_51_witness :
    tempo_lt (tempo_rele_51_mt 3 300) (tempo_rele_51_mt 3 150) = true ∧
    tempo_rele_51_mt 3 150 ≠ none ∧ tempo_rele_51_mt 3 300 ≠ none :=
  C7_monotonia_stretta_51 3 150 300 (by norm_num) (by norm_num) (by norm_num)

set_option maxHeartbeats 2000000 in
/-- C8: the LV breaker curve is non-increasing in the current (equivalently
in the ratio r, the rated current being fixed and positive): for currents
`c1 ≤ c2` with the same positive rated current and multipliers (thermal
multiplier positive), the trip time at `c2` never exceeds the trip time at
`c1`, "never trips" counting as infinite. -/
theorem C8_bt_non_crescente (I_int_bt K_mag K_term c1 c2 : ℚ) (h : 0 < I_int_bt)
    (hK : 0 < K_term) (h12 : c1 ≤ c2) :
    tempo_leb (tempo_interruttore_bt c2 I_int_bt K_mag K_term)
      (tempo_interruttore_bt c1 I_int_bt K_mag K_term) = true := by
  have hr12 : c1 / I_int_bt ≤ c2 / I_int_bt := (div_le_div_iff_of_pos_right h).mpr h12
  simp only [tempo_interruttore_bt]
  split_ifs <;>
    first
    | rfl
    | (norm_num [tempo_leb]; done)
    | (exfalso; linarith)
    | (simp only [tempo_leb, decide_eq_true_eq]
       have hp1 : 0 < c1 / I_int_bt :=
         lt_of_lt_of_le hK (by rw [le_div_iff₀ h]; linarith)
       have hp2 : 0 < c2 / I_int_bt := lt_of_lt_of_le hp1 hr12
       refine min_le_min ?_ le_rfl
       rw [div_le_div_iff (pow_pos hp2 2) (pow_pos hp1 2)]
       nlinarith [mul_nonneg (sub_nonneg.mpr hr12)
         (by linarith : (0 : ℚ) ≤ c2 / I_int_bt + c1 / I_int_bt)])
    | (simp only [tempo_leb, decide_eq_true_eq]
       have hp1 : 0 < c1 / I_int_bt :=
         lt_of_lt_of_le hK (by rw [le_div_iff₀ h]; linarith)
       have hlt2 : c1 / I_int_bt < 2 := by linarith
       refine le_min ?_ (by norm_num)
       rw [le_div_iff₀ (pow_pos hp1 2)]
       nlinarith [mul_pos (sub_pos.mpr hlt2)
         (by linarith : (0 : ℚ) < c1 / I_int_bt + 2)])

/-- C8 (witness): rated 1000 A with the default multipliers, at 3000 A and
5000 A. -/
theorem C8_bt_non_crescente_witness :
    tempo_leb (tempo_interruttore_bt 5000 1000 10 1.45)
      (tempo_interruttore_bt 3000 1000 10 1.45) = true :=
  C8_bt_non_crescente 1000 10 1.45 3000 5000 (by norm_num) (by norm_num) (by norm_num)

/-- C9: with the default magnetic multiplier `K_mag = 10`, every current with
ratio at least 10 takes the magnetic branch (exactly 0.01 s), and therefore
no current at all can ever produce the thermal-band values 0.02 s, 0.05 s
or 0.1 s reserved for ratios at least 50, 20 and 10. -/
theorem C9_ramo_magnetico_domina (I_int_bt c : ℚ) (h : 0 < I_int_bt)
    (hr : 10 ≤ c / I_int_bt) :
    tempo_interruttore_bt c I_int_bt 10 1.45 = some 0.01 ∧
    ∀ c2 : ℚ, tempo_interruttore_bt c2 I_int_bt 10 1.45 ≠ some 0.02 ∧
      tempo_interruttore_bt c2 I_int_bt 10 1.45 ≠ some 0.05 ∧
      tempo_interruttore_bt c2 I_int_bt 10 1.45 ≠ some 0.1 := by
  constructor
  · have hc : c ≥ I_int_bt * 10 := by
      have := (le_div_iff h).mp hr
      linarith
    simp [tempo_interruttore_bt, hc]
  · intro c2
    simp only [tempo_interruttore_bt]
    split_ifs with h1 h2 h3 h4 h5 h6 h7
    · exact ⟨by norm_num, by norm_num, by norm_num⟩
    · exfalso
      have h3' := (le_div_iff h).mp h3
      linarith
    · exfalso
      have h4' := (le_div_iff h).mp h4
      linarith
    · exfalso
      have h5' := (le_div_iff h).mp h5
      linarith
    · exact ⟨by norm_num, by norm_num, by norm_num⟩
    · exact ⟨by norm_num, by norm_num, by norm_num⟩
    · have hpos : 0 < c2 / I_int_bt := by
        apply div_pos ?_ h
        nlinarith
      have hr2 : c2 / I_int_bt < 2 := not_le.mp h7
      have h900 : (900 : ℚ) ≤ min (3600 / (c2 / I_int_bt) ^ 2) 3600 := by
        refine le_min ?_ (by norm_num)
        rw [le_div_iff (pow_pos hpos 2)]
        nlinarith [mul_pos (sub_pos.mpr hr2) (by linarith : (0 : ℚ) < c2 / I_int_bt + 2)]
      refine ⟨fun heq => ?_, fun heq => ?_, fun heq => ?_⟩ <;>
        · have := Option.some.inj heq
          rw [this] at h900
          norm_num at h900
    · exact ⟨by simp, by simp, by simp⟩

/-- C9 (witness): rated current 1000 A, current 15000 A (ratio 15). -/
theorem C9_ramo_magnetico_domina_witness :
    tempo_interruttore_bt 15000 1000 10 1.45 = some 0.01 ∧
    tempo_interruttore_bt 2500 1000 10 1.45 ≠ some 0.1 :=
  ⟨(C9_ramo_magnetico_domina 1000 15000 (by norm_num) (by norm_num)).1,
   ((C9_ramo_magnetico_domina 1000 15000 (by norm_num) (by norm_num)).2 2500).2.2⟩

/-- C2 (counterexample): on a concrete input with three neither-trips points
the source's rating counts them as successes, so the code returns
"excellent" while the fraction of points classified adequate or ideal is
only 4/7, which the claim's thresholds would rate "acceptable". -/
theorem C2_counterexample :
    (verifica_selettivita_protezioni 20000 400 10 100 0 25000 ()
        1000).valutazione_complessiva = Valutazione.eccellente ∧
    valutazione_spec (verifica_selettivita_protezioni 20000 400 10 100 0 25000 ()
        1000).risultati_selettivita = Valutazione.accettabile ∧
    Valutazione.eccellente ≠ Valutazione.accettabile := by
  refine ⟨?_, ?_, by decide⟩
  · norm_num [verifica_selettivita_protezioni, valuta_punto, tempo_interruttore_bt,
      tempo_rele_51_mt, tempo_rele_50_mt, tmin, margine_richiesto, Selettivita.testo,
      List.filter, List.filterMap]
  · norm_num [valutazione_spec, verifica_selettivita_protezioni, valuta_punto,
      tempo_interruttore_bt, tempo_rele_51_mt, tempo_rele_50_mt, tmin,
      margine_richiesto, Selettivita.testo, Selettivita.adeguataOIdeale,
      List.filter, List.filterMap]

/-- C2 (amended): the aggregate rating is computed, with the stated
thresholds, from the fraction of test points whose classification is
adequate (`ok`), ideal (`perfetto`) or safe (`okNessuno`) — every branch
whose display string carries the checkmark — not from adequate and ideal
alone. -/
theorem C2_valutazione {α : Type} (p : α)
    (V_mt V_bt I_mt I_bt Icc_mt Icc_bt I_int_bt : ℚ) :
    (verifica_selettivita_protezioni V_mt V_bt I_mt I_bt Icc_mt Icc_bt
        p I_int_bt).valutazione_complessiva
      = (let rep := verifica_selettivita_protezioni V_mt V_bt I_mt I_bt Icc_mt Icc_bt
            p I_int_bt
         let frazione := (((rep.risultati_selettivita.filter
             (fun r => r.selettivita.conSpunta)).length : ℚ)
           / (rep.risultati_selettivita.length : ℚ)) * 100
         if frazione ≥ 85 then Valutazione.eccellente
         else if frazione ≥ 70 then Valutazione.buona
         else if frazione ≥ 50 then Valutazione.accettabile
         else Valutazione.critica) := by
  have hfil : ((verifica_selettivita_protezioni V_mt V_bt I_mt I_bt Icc_mt Icc_bt
          p I_int_bt).risultati_selettivita.filter
        (fun r => decide ('✅' ∈ r.selettivita.testo.data)))
      = ((verifica_selettivita_protezioni V_mt V_bt I_mt I_bt Icc_mt Icc_bt
          p I_int_bt).risultati_selettivita.filter
        (fun r => r.selettivita.conSpunta)) :=
    List.filter_congr (fun x _ => conSpunta_eq x.selettivita)
  dsimp only
  rw [← hfil]
  rfl

/-- C6 (counterexample): at a current exactly equal to the pickup threshold,
the 50 stage and the LV breaker do trip instead of reporting "never trips":
50-stage pickup 400 A gives 0.3 s at 400 A, the LV magnetic threshold
10 x 1000 A gives 0.01 s at 10000 A, and the LV thermal threshold
1.45 x 1000 A gives the finite thermal time 1440000/841 s at 1450 A. -/
theorem C6_counterexample :
    tempo_rele_50_mt 400 400 = some 0.3 ∧
    tempo_interruttore_bt 10000 1000 10 1.45 = some 0.01 ∧
    tempo_interruttore_bt 1450 1000 10 1.45 = some (1440000 / 841) := by
  norm_num [tempo_rele_50_mt, tempo_interruttore_bt]

/-- C6 (amended): only the 51 stage treats a current exactly at pickup as
below pickup (never trips); the 50 stage and both LV breaker thresholds use
non-strict comparisons and trip at exact equality. -/
theorem C6_uguaglianza_soglie (Is I50 I_int_bt : ℚ) (hIs : 0 < Is)
    (h : 0 < I_int_bt) :
    tempo_rele_51_mt Is Is = none ∧
    tempo_rele_50_mt I50 I50 = some 0.3 ∧
    tempo_interruttore_bt (I_int_bt * 10) I_int_bt 10 1.45 = some 0.01 ∧
    tempo_interruttore_bt (I_int_bt * 1.45) I_int_bt 10 1.45
      = some (1440000 / 841) := by
  refine ⟨?_, ?_, ?_, ?_⟩
  · simp [tempo_rele_51_mt, div_self hIs.ne']
  · simp [tempo_rele_50_mt]
  · simp [tempo_interruttore_bt]
  · have hrap : I_int_bt * 1.45 / I_int_bt = 1.45 := by
      rw [mul_comm, mul_div_assoc, div_self h.ne', mul_one]
    simp only [tempo_interruttore_bt, hrap]
    split_ifs with g1 g2 g3 g4 g5 g6 g7
    · exfalso; linarith
    · exact absurd g3 (by norm_num)
    · exact absurd g4 (by norm_num)
    · exact absurd g5 (by norm_num)
    · exact absurd g6 (by norm_num)
    · exact absurd g7 (by norm_num)
    · norm_num [min_def]
    · exact absurd (le_refl (I_int_bt * 1.45)) g2

/-- C6 (witness): the amended C6 at pickups 30 A, 400 A and rating 1000 A. -/
theorem C6_uguaglianza_soglie_witness :
    tempo_rele_51_mt 30 30 = none ∧
    tempo_rele_50_mt 400 400 = some 0.3 ∧
    tempo_interruttore_bt (1000 * 10) 1000 10 1.45 = some 0.01 ∧
    tempo_interruttore_bt (1000 * 1.45) 1000 10 1.45 = some (1440000 / 841) :=
  C6_uguaglianza_soglie 30 400 1000 (by norm_num) (by norm_num)

/-- C1: characterization of the per-test-point classification.  When both
trip times are finite the point is adequate (`ok`) for margin at least the
required one, marginal (`limite`) for margin in [0.6 x required, required),
and otherwise inadequate (`no`) with a recorded diagnostic carrying the test
current, both trip times, the margin and the required margin; when only the
LV time is finite the point is ideal (`perfetto`); when only the MV time is
finite it is a warning (`soloMT`); when neither trips it is safe
(`okNessuno`). -/
theorem C1_classificazione_punto
    (I51 I50 I_int_bt rapp I_bt Icc I_test tb tm : ℚ) :
    (tempo_interruttore_bt I_test I_int_bt 10 1.45 = some tb →
      tmin (tempo_rele_51_mt I51 (I_test * rapp)) (tempo_rele_50_mt I50 (I_test * rapp))
        = some tm →
      ((margine_richiesto I_bt Icc I_test ≤ tm - tb →
          (valuta_punto I51 I50 I_int_bt rapp I_bt Icc I_test).1.selettivita
            = Selettivita.ok) ∧
       (margine_richiesto I_bt Icc I_test * 0.6 ≤ tm - tb →
          tm - tb < margine_richiesto I_bt Icc I_test →
          (valuta_punto I51 I50 I_int_bt rapp I_bt Icc I_test).1.selettivita
            = Selettivita.limite) ∧
       (tm - tb < margine_richiesto I_bt Icc I_test * 0.6 →
          (valuta_punto I51 I50 I_int_bt rapp I_bt Icc I_test).1.selettivita
            = Selettivita.no ∧
          ((valuta_punto I51 I50 I_int_bt rapp I_bt Icc I_test).2.map
              (fun pr => (pr.corrente_kA, pr.tempo_bt_ms, pr.tempo_mt_ms,
                pr.margine_ms, pr.richiesto_ms)))
            = some (I_test / 1000, tb * 1000, tm * 1000, (tm - tb) * 1000,
                margine_richiesto I_bt Icc I_test * 1000)))) ∧
    (tempo_interruttore_bt I_test I_int_bt 10 1.45 = some tb →
      tmin (tempo_rele_51_mt I51 (I_test * rapp)) (tempo_rele_50_mt I50 (I_test * rapp))
        = none →
      (valuta_punto I51 I50 I_int_bt rapp I_bt Icc I_test).1.selettivita
        = Selettivita.perfetto) ∧
    (tempo_interruttore_bt I_test I_int_bt 10 1.45 = none →
      tmin (tempo_rele_51_mt I51 (I_test * rapp)) (tempo_rele_50_mt I50 (I_test * rapp))
        = some tm →
      (valuta_punto I51 I50 I_int_bt rapp I_bt Icc I_test).1.selettivita
        = Selettivita.soloMT) ∧
    (tempo_interruttore_bt I_test I_int_bt 10 1.45 = none →
      tmin (tempo_rele_51_mt I51 (I_test * rapp)) (tempo_rele_50_mt I50 (I_test * rapp))
        = none →
      (valuta_punto I51 I50 I_int_bt rapp I_bt Icc I_test).1.selettivita
        = Selettivita.okNessuno) := by
  have hpos : 0 < margine_richiesto I_bt Icc I_test := by
    unfold margine_richiesto
    split_ifs <;> norm_num
  refine ⟨fun hbt hmt => ?_, fun hbt hmt => ?_, fun hbt hmt => ?_, fun hbt hmt => ?_⟩
  · simp only [valuta_punto, hbt, hmt]
    refine ⟨fun h1 => ?_, fun h1 h2 => ?_, fun h1 => ?_⟩
    · rw [if_pos (show tm - tb ≥ margine_richiesto I_bt Icc I_test from h1)]
    · rw [if_neg (show ¬ tm - tb ≥ margine_richiesto I_bt Icc I_test from not_le.mpr h2),
        if_pos (show tm - tb ≥ margine_richiesto I_bt Icc I_test * 0.6 from h1)]
    · have hn1 : ¬ tm - tb ≥ margine_richiesto I_bt Icc I_test :=
        not_le.mpr (by linarith)
      have hn2 : ¬ tm - tb ≥ margine_richiesto I_bt Icc I_test * 0.6 := not_le.mpr h1
      rw [if_neg hn1, if_neg hn2]
      exact ⟨rfl, rfl⟩
  · simp only [valuta_punto, hbt, hmt]
  · simp only [valuta_punto, hbt, hmt]
  · simp only [valuta_punto, hbt, hmt]

/-- C1 (witness): the adequate branch at the concrete point with LV time
0.01 s, MV time 1.2 s and required margin 0.2 s. -/
theorem C1_classificazione_punto_test :
    (valuta_punto 30 400 1000 (1 / 50) 100 25000 15000).1.selettivita
      = Selettivita.ok := by
  have h := C1_classificazione_punto 30 400 1000 (1 / 50) 100 25000 15000 0.01 1.2
  refine (h.1 ?_ ?_).1 ?_
  · norm_num [tempo_interruttore_bt]
  · norm_num [tmin, tempo_rele_51_mt, tempo_rele_50_mt]
  · norm_num [margine_richiesto]

/-- C10: every report echoes `TMS_51 = 0.4` in its MV-settings block, while
the 51-stage trip times are computed with the hard-coded `TMS = 0.8` of
`tempo_rele_51_mt`; the echoed multiplier differs from the one used. -/
theorem C10_TMS_incoerente {α : Type} (p : α)
    (V_mt V_bt I_mt I_bt Icc_mt Icc_bt I_int_bt Is c : ℚ)
    (hIs : 0 < Is) (hc : Is < c) :
    (verifica_selettivita_protezioni V_mt V_bt I_mt I_bt Icc_mt Icc_bt
        p I_int_bt).TMS_51 = 0.4 ∧
    tempo_rele_51_mt Is c = some (0.8 * (13.5 / (c / Is - 1))) ∧
    (0.4 : ℚ) ≠ 0.8 :=
  ⟨rfl, tempo_rele_51_mt_sopra Is c hIs hc, by norm_num⟩

/-- C10 (witness): instantiated at the example scenario of the spec. -/
theorem C10_TMS_incoerente_witness :
    (verifica_selettivita_protezioni 20000 400 10 910 0 25000 ()
        1000).TMS_51 = 0.4 ∧
    tempo_rele_51_mt 3 3000 = some (0.8 * (13.5 / (3000 / 3 - 1))) ∧
    (0.4 : ℚ) ≠ 0.8 :=
  C10_TMS_incoerente () 20000 400 10 910 0 25000 1000 3 3000 (by norm_num) (by norm_num)
